import Mathlib

/-!
# timesync-operator: pod admission webhook and TimeSyncPolicy reconciler

A shallow embedding of

* `internal/webhook/v1/pod_webhook.go` (`PodCustomDefaulter.Default`),
* `internal/controller/timesyncpolicy_controller.go`
  (`TimeSyncPolicyReconciler.Reconcile` and `mapNamespaceToPolicies`),
* `api/v1alpha1/timesyncpolicy_types.go` (the policy types).

Conventions of the embedding

* Go structs become Lean structures with the Go field names; only the fields
  the entry points read or write are kept.
* A Go `map[string]string` is an association list; lookups take the first
  entry of a key.
* The controller-runtime client is an explicit `Cluster` value: the stored
  objects together with the error (if any) each kind of request is answered
  with.  Reads are functions of the cluster, the status update returns the
  cluster after the write.
* `metav1.LabelSelectorAsSelector` is a library function of
  k8s.io/apimachinery.  The entry points take it as the parameter `las`, so
  that the theorems hold for every behaviour of the library; the namespace
  `apimachinery` holds a concrete rendering of it that the worked examples
  evaluate.
* Logging is not modelled.
-/

set_option autoImplicit false

namespace TimeSync

/-! ## Labels and selectors (k8s.io/apimachinery) -/

/-- Go `map[string]string` as used for `ObjectMeta.Labels` and
`LabelSelector.MatchLabels`; the nil map is the empty list. -/
abbrev Labels := List (String × String)

/-- Method `labels.Set.Has`: is the key present. -/
def Labels.Has (ls : Labels) (key : String) : Bool :=
  ls.any (fun kv => kv.1 == key)

/-- Method `labels.Set.Get`: the value stored under the key, `""` if absent. -/
def Labels.Get (ls : Labels) (key : String) : String :=
  match ls.find? (fun kv => kv.1 == key) with
  | some kv => kv.2
  | none => ""

/-- Type `metav1.LabelSelectorRequirement`; the operator is a Go string type. -/
structure LabelSelectorRequirement where
  Key : String
  Operator : String
  Values : List String
  deriving DecidableEq, Repr

/-- Type `metav1.LabelSelector`. -/
structure LabelSelector where
  MatchLabels : Labels
  MatchExpressions : List LabelSelectorRequirement
  deriving DecidableEq, Repr

/-- Interface `labels.Selector`, reduced to the one method the operator calls. -/
structure Selector where
  Matches : Labels → Bool

namespace apimachinery

/-- Values of `selection.Operator` that `LabelSelectorAsSelector` can produce. -/
inductive Operator where
  | In
  | NotIn
  | Equals
  | Exists
  | DoesNotExist
  deriving DecidableEq, Repr

/-- Type `labels.Requirement`. -/
structure Requirement where
  key : String
  operator : Operator
  strValues : List String
  deriving DecidableEq, Repr

/-- Character class `[A-Za-z0-9]`. -/
def qnameChar (c : Char) : Bool :=
  c.isAlphanum

/-- Character class `[-A-Za-z0-9_.]`. -/
def qnameExtChar (c : Char) : Bool :=
  c.isAlphanum || c == '-' || c == '_' || c == '.'

/-- Regular expression `([A-Za-z0-9][-A-Za-z0-9_.]*)?[A-Za-z0-9]`, anchored. -/
def qualifiedNameFmt (s : List Char) : Bool :=
  match s with
  | [] => false
  | c :: cs =>
    qnameChar c && (c :: cs).all qnameExtChar && ((c :: cs).getLast?.map qnameChar).getD false

/-- Regular expression `[a-z0-9]([-a-z0-9]*[a-z0-9])?`, anchored. -/
def dns1123LabelFmt (s : List Char) : Bool :=
  let lowerNum := fun (c : Char) => c.isLower || c.isDigit
  match s with
  | [] => false
  | c :: cs =>
    lowerNum c && (c :: cs).all (fun d => lowerNum d || d == '-')
      && ((c :: cs).getLast?.map lowerNum).getD false

/-- Go `strings.Split` on a single separator character. -/
def splitOnChar (sep : Char) : List Char → List (List Char)
  | [] => [[]]
  | c :: cs =>
    if c = sep then [] :: splitOnChar sep cs
    else
      match splitOnChar sep cs with
      | [] => [[c]]
      | h :: t => (c :: h) :: t

/-- Function `validation.IsDNS1123Subdomain`, as "no error reported": at most
253 characters, dot-separated DNS-1123 labels.  (Go counts bytes; the
expression admits ASCII only, so the two counts agree whenever it matches.) -/
def IsDNS1123Subdomain (s : List Char) : Bool :=
  decide (s.length ≤ 253) && (splitOnChar '.' s).all dns1123LabelFmt

/-- Function `validation.IsQualifiedName`, as "no error reported". -/
def IsQualifiedName (value : String) : Bool :=
  let nameOk := fun (name : List Char) =>
    decide (name.length ≤ 63) && qualifiedNameFmt name
  match splitOnChar '/' value.data with
  | [name] => nameOk name
  | [domain, name] => !domain.isEmpty && IsDNS1123Subdomain domain && nameOk name
  | _ => false

/-- Function `validation.IsValidLabelValue`, as "no error reported". -/
def IsValidLabelValue (value : String) : Bool :=
  decide (value.data.length ≤ 63) && (value.data.isEmpty || qualifiedNameFmt value.data)

/-- Function `labels.NewRequirement`, for the operators above: the key is a
qualified name, the number of values fits the operator, and every value is a
valid label value. -/
def NewRequirement (key : String) (op : Operator) (vals : List String) :
    Except String Requirement :=
  let countOk : Bool :=
    match op with
    | .In | .NotIn => !vals.isEmpty
    | .Equals => vals.length == 1
    | .Exists | .DoesNotExist => vals.isEmpty
  if IsQualifiedName key && countOk && vals.all IsValidLabelValue then
    .ok { key := key, operator := op, strValues := vals }
  else
    .error "invalid label requirement"

/-- Method `Requirement.Matches`. -/
def Requirement.Matches (r : Requirement) (ls : Labels) : Bool :=
  match r.operator with
  | .In | .Equals =>
    if !Labels.Has ls r.key then false else r.strValues.contains (Labels.Get ls r.key)
  | .NotIn =>
    if !Labels.Has ls r.key then true else !r.strValues.contains (Labels.Get ls r.key)
  | .Exists => Labels.Has ls r.key
  | .DoesNotExist => !Labels.Has ls r.key

/-- The `for k, v := range ps.MatchLabels` loop of `LabelSelectorAsSelector`. -/
def matchLabelsRequirements : Labels → Except String (List Requirement)
  | [] => .ok []
  | (k, v) :: rest =>
    match NewRequirement k .Equals [v] with
    | .error e => .error e
    | .ok r =>
      match matchLabelsRequirements rest with
      | .error e => .error e
      | .ok rs => .ok (r :: rs)

/-- The `switch expr.Operator` of `LabelSelectorAsSelector`. -/
def selectionOperator (op : String) : Except String Operator :=
  if op = "In" then .ok .In
  else if op = "NotIn" then .ok .NotIn
  else if op = "Exists" then .ok .Exists
  else if op = "DoesNotExist" then .ok .DoesNotExist
  else .error "not a valid label selector operator"

/-- The `for _, expr := range ps.MatchExpressions` loop of
`LabelSelectorAsSelector`. -/
def matchExpressionsRequirements :
    List LabelSelectorRequirement → Except String (List Requirement)
  | [] => .ok []
  | expr :: rest =>
    match selectionOperator expr.Operator with
    | .error e => .error e
    | .ok op =>
      match NewRequirement expr.Key op expr.Values with
      | .error e => .error e
      | .ok r =>
        match matchExpressionsRequirements rest with
        | .error e => .error e
        | .ok rs => .ok (r :: rs)

/-- Modelled from the spec: `labels.Selector` values are built by
k8s.io/apimachinery, whose code is not among the repository files.  Method
`internalSelector.Matches`: every requirement matches, so a selector with no
requirements matches every label set. -/
def internalSelector (reqs : List Requirement) : Selector :=
  { Matches := fun ls => reqs.all (fun r => r.Matches ls) }

/-- Modelled from the spec: `metav1.LabelSelectorAsSelector` is a function of
k8s.io/apimachinery, whose code is not among the repository files.  Applied to
a non-nil selector: no requirement at all gives `labels.Everything()`, which
matches every label set; otherwise the conjunction of the requirements, or an
error when one of them is malformed (invalid operator, invalid value set). -/
def LabelSelectorAsSelector (ps : LabelSelector) : Except String Selector :=
  if ps.MatchLabels.length + ps.MatchExpressions.length = 0 then
    .ok (internalSelector [])
  else
    match matchLabelsRequirements ps.MatchLabels with
    | .error e => .error e
    | .ok rs1 =>
      match matchExpressionsRequirements ps.MatchExpressions with
      | .error e => .error e
      | .ok rs2 => .ok (internalSelector (rs1 ++ rs2))

end apimachinery

/-! ## API types -/

/-- Type `TimeSyncPolicySpec` of `api/v1alpha1`. -/
structure TimeSyncPolicySpec where
  NamespaceSelector : LabelSelector
  Enable : Bool
  Image : String
  deriving DecidableEq, Repr

/-- Type `TimeSyncPolicyStatus` of `api/v1alpha1`; the Go `int` is an
integer here (a count of list elements never leaves the range of `int`). -/
structure TimeSyncPolicyStatus where
  MatchedNamespaces : Int
  deriving DecidableEq, Repr

/-- Type `TimeSyncPolicy` of `api/v1alpha1`, with the object name of its
`ObjectMeta`. -/
structure TimeSyncPolicy where
  Name : String
  Spec : TimeSyncPolicySpec
  Status : TimeSyncPolicyStatus
  deriving DecidableEq, Repr

/-- Type `corev1.Namespace`: name and labels. -/
structure Namespace where
  Name : String
  Labels : Labels
  deriving DecidableEq, Repr

/-- Type `corev1.Container`: the fields the webhook sets. -/
structure Container where
  Name : String
  Image : String
  Args : List String
  deriving DecidableEq, Repr

/-- Type `corev1.PodSpec`: the container sequence. -/
structure PodSpec where
  Containers : List Container
  deriving DecidableEq, Repr

/-- Type `corev1.Pod`. -/
structure Pod where
  Name : String
  Namespace : String
  Spec : PodSpec
  deriving DecidableEq, Repr

/-- Interface `runtime.Object` as the webhook receives it: a pod, or an
object of another Go type (named by its `%T`). -/
inductive RuntimeObject where
  | pod (p : Pod)
  | other (goType : String)
  deriving DecidableEq, Repr

/-- Go `error` values that travel through the two entry points. -/
inductive Error where
  | notFound (what : String)
  | conflict (what : String)
  | failure (msg : String)
  | expectedPod (goType : String)
  deriving DecidableEq, Repr

/-- Function `apierrors.IsNotFound`. -/
def IsNotFound : Error → Bool
  | .notFound _ => true
  | _ => false

/-- Type `types.NamespacedName`, the key of a request. -/
structure NamespacedName where
  Namespace : String
  Name : String
  deriving DecidableEq, Repr

/-- Type `ctrl.Request`. -/
structure Request where
  NamespacedName : NamespacedName
  deriving DecidableEq, Repr

/-- Type `ctrl.Result`. -/
structure Result where
  Requeue : Bool
  RequeueAfter : Nat
  deriving DecidableEq, Repr

/-! ## The client -/

/-- The API server as the controller-runtime client shows it: the namespaces
and policies it stores, and for each kind of request the error it is
answered with, if any (`none`: the request is served from the store). -/
structure Cluster where
  namespaces : List Namespace
  policies : List TimeSyncPolicy
  getNamespaceErr : Option Error
  listPoliciesErr : Option Error
  getPolicyErr : Option Error
  listNamespacesErr : Option Error
  statusUpdateErr : Option Error
  deriving DecidableEq, Repr

/-- The stored policy of a name (policies are cluster-scoped, so the name
alone identifies one). -/
def Cluster.storedPolicy (c : Cluster) (name : String) : Option TimeSyncPolicy :=
  c.policies.find? (fun p => p.Name == name)

/-- Call `k8sClient.Get(ctx, client.ObjectKey{Name: name}, ns)`. -/
def Cluster.GetNamespace (c : Cluster) (name : String) : Except Error Namespace :=
  match c.getNamespaceErr with
  | some err => .error err
  | none =>
    match c.namespaces.find? (fun ns => ns.Name == name) with
    | some ns => .ok ns
    | none => .error (.notFound name)

/-- Call `k8sClient.List(ctx, policies)`. -/
def Cluster.ListPolicies (c : Cluster) : Except Error (List TimeSyncPolicy) :=
  match c.listPoliciesErr with
  | some err => .error err
  | none => .ok c.policies

/-- Call `r.Get(ctx, req.NamespacedName, &policy)`. -/
def Cluster.GetPolicy (c : Cluster) (key : NamespacedName) : Except Error TimeSyncPolicy :=
  match c.getPolicyErr with
  | some err => .error err
  | none =>
    match c.storedPolicy key.Name with
    | some p => .ok p
    | none => .error (.notFound key.Name)

/-- Call `r.List(ctx, &namespaces)`. -/
def Cluster.ListNamespaces (c : Cluster) : Except Error (List Namespace) :=
  match c.listNamespacesErr with
  | some err => .error err
  | none => .ok c.namespaces

/-- Call `r.Status().Update(ctx, &policy)`: on success the stored object of
that name carries the status sent. -/
def Cluster.StatusUpdate (c : Cluster) (policy : TimeSyncPolicy) : Except Error Cluster :=
  match c.statusUpdateErr with
  | some err => .error err
  | none =>
    if c.policies.any (fun q => q.Name == policy.Name) then
      .ok { c with policies := c.policies.map (fun q =>
              if q.Name == policy.Name then { q with Status := policy.Status } else q) }
    else
      .error (.notFound policy.Name)

/-! ## internal/webhook/v1/pod_webhook.go -/

/-- The loop `for _, policy := range policies.Items` of `Default`, returning
`pod.Spec.Containers` as the loop leaves it. -/
def Default.policiesLoop (las : LabelSelector → Except String Selector)
    (nsLabels : Labels) (containers : List Container) :
    List TimeSyncPolicy → List Container
  | [] => containers
  | policy :: rest =>
    match las policy.Spec.NamespaceSelector with
    | .error _ => Default.policiesLoop las nsLabels containers rest
    | .ok selector =>
      if selector.Matches nsLabels && policy.Spec.Enable then
        containers ++ [{ Name := "timesync", Image := policy.Spec.Image,
                         Args := ["sleep", "infinity"] }]
      else
        Default.policiesLoop las nsLabels containers rest

/-- Method `PodCustomDefaulter.Default`: the object as the call leaves it, and
the error returned (`none` for `nil`). -/
def Default (las : LabelSelector → Except String Selector) (k8sClient : Cluster)
    (obj : RuntimeObject) : RuntimeObject × Option Error :=
  match obj with
  | .other goType => (.other goType, some (.expectedPod goType))
  | .pod pod =>
    if pod.Spec.Containers.any (fun c => c.Name == "timesync") then
      (.pod pod, none)
    else
      match k8sClient.GetNamespace pod.Namespace with
      | .error _ => (.pod pod, none)
      | .ok ns =>
        match k8sClient.ListPolicies with
        | .error _ => (.pod pod, none)
        | .ok policies =>
          let containers := Default.policiesLoop las ns.Labels pod.Spec.Containers policies
          (.pod { pod with Spec := { pod.Spec with Containers := containers } }, none)

/-! ## internal/controller/timesyncpolicy_controller.go -/

/-- A request `Reconcile` sends to the client. -/
inductive Call where
  | Get (key : NamespacedName)
  | List
  | StatusUpdate (policy : TimeSyncPolicy)
  deriving DecidableEq, Repr

/-- What one run of `Reconcile` yields: the two return values, the cluster
after the run, and the client requests made, in order. -/
structure ReconcileOutcome where
  result : Result
  err : Option Error
  cluster : Cluster
  calls : List Call
  deriving DecidableEq, Repr

/-- The loop `for _, ns := range namespaces.Items` of `Reconcile`, started
with the current value of `matchCount`. -/
def Reconcile.matchCountLoop (selector : Selector) : List Namespace → Int → Int
  | [], matchCount => matchCount
  | ns :: rest, matchCount =>
    Reconcile.matchCountLoop selector rest
      (if selector.Matches ns.Labels then matchCount + 1 else matchCount)

/-- Method `TimeSyncPolicyReconciler.Reconcile`. -/
def Reconcile (las : LabelSelector → Except String Selector) (r : Cluster)
    (req : Request) : ReconcileOutcome :=
  match r.GetPolicy req.NamespacedName with
  | .error err =>
    if IsNotFound err then
      { result := ⟨false, 0⟩, err := none, cluster := r, calls := [.Get req.NamespacedName] }
    else
      { result := ⟨false, 0⟩, err := some err, cluster := r,
        calls := [.Get req.NamespacedName] }
  | .ok policy =>
    match r.ListNamespaces with
    | .error err =>
      { result := ⟨false, 0⟩, err := some err, cluster := r,
        calls := [.Get req.NamespacedName, .List] }
    | .ok namespaces =>
      match las policy.Spec.NamespaceSelector with
      | .error _ =>
        { result := ⟨false, 0⟩, err := none, cluster := r,
          calls := [.Get req.NamespacedName, .List] }
      | .ok selector =>
        let matchCount := Reconcile.matchCountLoop selector namespaces 0
        if policy.Status.MatchedNamespaces ≠ matchCount then
          let policy1 : TimeSyncPolicy :=
            { policy with Status := { policy.Status with MatchedNamespaces := matchCount } }
          match r.StatusUpdate policy1 with
          | .error err =>
            { result := ⟨false, 0⟩, err := some err, cluster := r,
              calls := [.Get req.NamespacedName, .List, .StatusUpdate policy1] }
          | .ok r1 =>
            { result := ⟨false, 0⟩, err := none, cluster := r1,
              calls := [.Get req.NamespacedName, .List, .StatusUpdate policy1] }
        else
          { result := ⟨false, 0⟩, err := none, cluster := r,
            calls := [.Get req.NamespacedName, .List] }

/-- Interface `client.Object` as the namespace watch hands it to the map
function: a namespace, or an object of another Go type. -/
inductive ClientObject where
  | ofNamespace (ns : Namespace)
  | other (goType : String)
  deriving DecidableEq, Repr

/-- The loop `for _, policy := range policies.Items` of
`mapNamespaceToPolicies`, started with the current value of `reqs`. -/
def mapNamespaceToPolicies.policiesLoop (las : LabelSelector → Except String Selector)
    (nsLabels : Labels) : List TimeSyncPolicy → List Request → List Request
  | [], reqs => reqs
  | policy :: rest, reqs =>
    match las policy.Spec.NamespaceSelector with
    | .error _ => mapNamespaceToPolicies.policiesLoop las nsLabels rest reqs
    | .ok selector =>
      if selector.Matches nsLabels then
        mapNamespaceToPolicies.policiesLoop las nsLabels rest
          (reqs ++ [{ NamespacedName := { Namespace := "", Name := policy.Name } }])
      else
        mapNamespaceToPolicies.policiesLoop las nsLabels rest reqs

/-- Method `TimeSyncPolicyReconciler.mapNamespaceToPolicies`; the nil slice is
the empty list. -/
def mapNamespaceToPolicies (las : LabelSelector → Except String Selector) (r : Cluster)
    (obj : ClientObject) : List Request :=
  match obj with
  | .other _ => []
  | .ofNamespace ns =>
    match r.ListPolicies with
    | .error _ => []
    | .ok policies => mapNamespaceToPolicies.policiesLoop las ns.Labels policies []

/-! ## Vocabulary of the statements -/

/-- The container `Default` appends for a policy image. -/
def timesyncSidecar (image : String) : Container :=
  { Name := "timesync", Image := image, Args := ["sleep", "infinity"] }

/-- Does the pod carry a container named "timesync". -/
def hasTimesync (pod : Pod) : Bool :=
  pod.Spec.Containers.any (fun c => c.Name == "timesync")

/-- The pod with its container sequence replaced. -/
def Pod.withContainers (pod : Pod) (containers : List Container) : Pod :=
  { pod with Spec := { pod.Spec with Containers := containers } }

/-- Does the selector of the policy parse. -/
def wellFormed (las : LabelSelector → Except String Selector) (p : TimeSyncPolicy) : Bool :=
  match las p.Spec.NamespaceSelector with
  | .error _ => false
  | .ok _ => true

/-- Does the selector of the policy parse and match the labels. -/
def selects (las : LabelSelector → Except String Selector) (nsLabels : Labels)
    (p : TimeSyncPolicy) : Bool :=
  match las p.Spec.NamespaceSelector with
  | .error _ => false
  | .ok selector => selector.Matches nsLabels

/-- A policy the admission path injects from: it is enabled and its selector
parses and matches the labels. -/
def eligible (las : LabelSelector → Except String Selector) (nsLabels : Labels)
    (p : TimeSyncPolicy) : Bool :=
  selects las nsLabels p && p.Spec.Enable

/-- Is the request a status update. -/
def Call.isStatusUpdate : Call → Bool
  | .StatusUpdate _ => true
  | _ => false

/-- The number of listed namespaces whose labels the selector matches. -/
def matchingNamespaces (selector : Selector) (namespaces : List Namespace) : Nat :=
  (namespaces.filter (fun ns => selector.Matches ns.Labels)).length

/-- The policy with `Status.MatchedNamespaces` set, as `Reconcile` sends it. -/
def TimeSyncPolicy.withMatched (policy : TimeSyncPolicy) (matchCount : Int) : TimeSyncPolicy :=
  { policy with Status := { policy.Status with MatchedNamespaces := matchCount } }

/-- The reconcile request `mapNamespaceToPolicies` makes for a policy: its
name, no namespace. -/
def requestFor (p : TimeSyncPolicy) : Request :=
  { NamespacedName := { Namespace := "", Name := p.Name } }

/-- The policy with `Spec.Enable` replaced. -/
def TimeSyncPolicy.withEnable (p : TimeSyncPolicy) (enable : Bool) : TimeSyncPolicy :=
  { p with Spec := { p.Spec with Enable := enable } }

/-! ## Worked example: the scenario of the webhook test suite -/

deriving instance DecidableEq for Except

namespace Scenario

/-- Selector `env=test`. -/
def envTest : LabelSelector :=
  { MatchLabels := [("env", "test")], MatchExpressions := [] }

/-- A selector with an operator that does not exist. -/
def malformed : LabelSelector :=
  { MatchLabels := [], MatchExpressions := [⟨"env", "Near", ["test"]⟩] }

/-- The policy of the test suite. -/
def testPolicy : TimeSyncPolicy :=
  { Name := "test-policy",
    Spec := { NamespaceSelector := envTest, Enable := true, Image := "timesync:latest" },
    Status := { MatchedNamespaces := 0 } }

/-- A second enabled policy selecting `env=test`, with another image. -/
def otherPolicy : TimeSyncPolicy :=
  { Name := "other-policy",
    Spec := { NamespaceSelector := envTest, Enable := true, Image := "timesync:v2" },
    Status := { MatchedNamespaces := 0 } }

/-- A disabled policy selecting `env=test`. -/
def disabledPolicy : TimeSyncPolicy :=
  { Name := "disabled-policy",
    Spec := { NamespaceSelector := envTest, Enable := false, Image := "timesync:off" },
    Status := { MatchedNamespaces := 0 } }

/-- A policy whose selector does not parse, with a stale status. -/
def brokenPolicy : TimeSyncPolicy :=
  { Name := "broken-policy",
    Spec := { NamespaceSelector := malformed, Enable := true, Image := "timesync:broken" },
    Status := { MatchedNamespaces := 5 } }

/-- Namespace `test-namespace` with labels `{env: test}`. -/
def testNamespace : Namespace :=
  { Name := "test-namespace", Labels := [("env", "test")] }

/-- Namespace `isolated-ns` without labels. -/
def isolatedNs : Namespace :=
  { Name := "isolated-ns", Labels := [] }

/-- A cluster holding the two namespaces and the given policies, every request
served from the store. -/
def cluster (policies : List TimeSyncPolicy) : Cluster :=
  { namespaces := [testNamespace, isolatedNs], policies := policies,
    getNamespaceErr := none, listPoliciesErr := none, getPolicyErr := none,
    listNamespacesErr := none, statusUpdateErr := none }

/-- The pod of the test suite, in the given namespace. -/
def appPod (namespace1 : String) : Pod :=
  { Name := "test-pod", Namespace := namespace1,
    Spec := { Containers := [{ Name := "app", Image := "app:latest", Args := [] }] } }

/-- Five namespaces, three of them labelled `env=test`. -/
def fiveNamespaces : List Namespace :=
  [⟨"a", [("env", "test")]⟩, ⟨"b", [("env", "prod")]⟩, ⟨"c", [("env", "test"), ("team", "x")]⟩,
   ⟨"d", []⟩, ⟨"e", [("env", "test")]⟩]

/-- A cluster holding the five namespaces and the given policies; the status
update is answered with the given error, if any. -/
def fiveCluster (policies : List TimeSyncPolicy) (statusUpdateErr : Option Error) : Cluster :=
  { namespaces := fiveNamespaces, policies := policies,
    getNamespaceErr := none, listPoliciesErr := none, getPolicyErr := none,
    listNamespacesErr := none, statusUpdateErr := statusUpdateErr }

/-- The request for the policy of a name. -/
def request (name : String) : Request :=
  { NamespacedName := { Namespace := "default", Name := name } }

/-- The selector `env=test` as `LabelSelectorAsSelector` returns it. -/
def envTestSelector : Selector :=
  apimachinery.internalSelector [⟨"env", .Equals, ["test"]⟩]

/-- An enabled policy selecting `env=prod`. -/
def prodPolicy : TimeSyncPolicy :=
  { Name := "prod-policy",
    Spec := { NamespaceSelector := { MatchLabels := [("env", "prod")], MatchExpressions := [] },
              Enable := true, Image := "timesync:prod" },
    Status := { MatchedNamespaces := 0 } }

/-- The policy of the controller test: an empty spec, so a selector with no
requirements, not enabled. -/
def openPolicy : TimeSyncPolicy :=
  { Name := "test-resource",
    Spec := { NamespaceSelector := { MatchLabels := [], MatchExpressions := [] },
              Enable := false, Image := "" },
    Status := { MatchedNamespaces := 0 } }

end Scenario

/-! ## Lemmas on the admission path -/

theorem policiesLoop_eq_find (las : LabelSelector → Except String Selector)
    (nsLabels : Labels) (containers : List Container) (policies : List TimeSyncPolicy) :
    Default.policiesLoop las nsLabels containers policies =
      match policies.find? (eligible las nsLabels) with
      | some p => containers ++ [timesyncSidecar p.Spec.Image]
      | none => containers := by
  induction policies with
  | nil => rfl
  | cons p rest ih =>
    simp only [Default.policiesLoop, List.find?_cons, eligible, selects]
    cases hparse : las p.Spec.NamespaceSelector with
    | error e => simpa [eligible, selects] using ih
    | ok sel =>
      by_cases hm : (sel.Matches nsLabels && p.Spec.Enable) = true
      · simp [hm, timesyncSidecar]
      · simp only [hm, if_false]
        have hf : (sel.Matches nsLabels && p.Spec.Enable) = false := by simpa using hm
        simpa [hf, eligible, selects] using ih

theorem Default_of_hasTimesync (las : LabelSelector → Except String Selector)
    (c : Cluster) (pod : Pod) (h : hasTimesync pod = true) :
    Default las c (.pod pod) = (.pod pod, none) := by
  unfold hasTimesync at h
  simp [Default, h]

theorem Default_eq_find (las : LabelSelector → Except String Selector) (c : Cluster)
    (pod : Pod) (ns : Namespace) (policies : List TimeSyncPolicy)
    (hno : hasTimesync pod = false)
    (hns : c.GetNamespace pod.Namespace = .ok ns)
    (hlist : c.ListPolicies = .ok policies) :
    Default las c (.pod pod) =
      match policies.find? (eligible las ns.Labels) with
      | some p => (.pod (pod.withContainers
          (pod.Spec.Containers ++ [timesyncSidecar p.Spec.Image])), none)
      | none => (.pod pod, none) := by
  unfold hasTimesync at hno
  simp only [Default, hno, hns, hlist, policiesLoop_eq_find]
  cases policies.find? (eligible las ns.Labels) <;> simp [Pod.withContainers]

theorem Default_first_eligible (las : LabelSelector → Except String Selector) (c : Cluster)
    (pod : Pod) (ns : Namespace) (pre post : List TimeSyncPolicy) (p1 : TimeSyncPolicy)
    (hno : hasTimesync pod = false)
    (hns : c.GetNamespace pod.Namespace = .ok ns)
    (hlist : c.ListPolicies = .ok (pre ++ p1 :: post))
    (hpre : ∀ q ∈ pre, eligible las ns.Labels q = false)
    (hp1 : eligible las ns.Labels p1 = true) :
    Default las c (.pod pod) =
      (.pod (pod.withContainers (pod.Spec.Containers ++ [timesyncSidecar p1.Spec.Image])),
        none) := by
  have hfind : (pre ++ p1 :: post).find? (eligible las ns.Labels) = some p1 := by
    rw [List.find?_append]
    have : pre.find? (eligible las ns.Labels) = none := by
      rw [List.find?_eq_none]
      intro q hq
      simp [hpre q hq]
    simp [this, List.find?_cons, hp1]
  rw [Default_eq_find las c pod ns _ hno hns hlist, hfind]

theorem Default_none_eligible (las : LabelSelector → Except String Selector) (c : Cluster)
    (pod : Pod) (ns : Namespace) (policies : List TimeSyncPolicy)
    (hns : c.GetNamespace pod.Namespace = .ok ns)
    (hlist : c.ListPolicies = .ok policies)
    (hnone : ∀ q ∈ policies, eligible las ns.Labels q = false) :
    Default las c (.pod pod) = (.pod pod, none) := by
  cases hts : hasTimesync pod with
  | true => exact Default_of_hasTimesync las c pod hts
  | false =>
    have hfind : policies.find? (eligible las ns.Labels) = none := by
      rw [List.find?_eq_none]
      intro q hq
      simp [hnone q hq]
    rw [Default_eq_find las c pod ns _ hts hns hlist, hfind]

theorem Default_err_pod (las : LabelSelector → Except String Selector) (c : Cluster)
    (pod : Pod) : (Default las c (.pod pod)).2 = none := by
  unfold Default
  split
  · rename_i h; cases h
  · rename_i p h
    split
    · rfl
    · split
      · rfl
      · split <;> rfl

/-- Replacing the stored policy list by one with the same first eligible
policy for every label set leaves `Default` as it is. -/
theorem Default_congr_policies (las : LabelSelector → Except String Selector) (c : Cluster)
    (policies : List TimeSyncPolicy) (obj : RuntimeObject)
    (h : ∀ nsLabels, policies.find? (eligible las nsLabels) =
      c.policies.find? (eligible las nsLabels)) :
    Default las { c with policies := policies } obj = Default las c obj := by
  cases obj with
  | other t => rfl
  | pod pod =>
    simp only [Default, Cluster.GetNamespace, Cluster.ListPolicies]
    split
    · rfl
    · cases c.getNamespaceErr with
      | some e => rfl
      | none =>
        cases c.namespaces.find? (fun ns => ns.Name == pod.Namespace) with
        | none => rfl
        | some ns =>
          cases c.listPoliciesErr with
          | some e => rfl
          | none => simp only [policiesLoop_eq_find, h]

theorem hasTimesync_withContainers_sidecar (pod : Pod) (image : String) :
    hasTimesync (pod.withContainers (pod.Spec.Containers ++ [timesyncSidecar image])) = true := by
  simp [hasTimesync, Pod.withContainers, timesyncSidecar]

/-- The two ways `Default` treats a pod: it returns it as it is, or the pod
had no container named "timesync" and gets one appended. -/
theorem Default_pod_cases (las : LabelSelector → Except String Selector) (c : Cluster)
    (pod : Pod) :
    Default las c (.pod pod) = (.pod pod, none) ∨
    (hasTimesync pod = false ∧ ∃ image, Default las c (.pod pod) =
      (.pod (pod.withContainers (pod.Spec.Containers ++ [timesyncSidecar image])), none)) := by
  cases hts : hasTimesync pod with
  | true => exact Or.inl (Default_of_hasTimesync las c pod hts)
  | false =>
    cases hns : c.GetNamespace pod.Namespace with
    | error e =>
      left
      unfold hasTimesync at hts
      simp [Default, hts, hns]
    | ok ns =>
      cases hlist : c.ListPolicies with
      | error e =>
        left
        unfold hasTimesync at hts
        simp [Default, hts, hns, hlist]
      | ok policies =>
        rw [Default_eq_find las c pod ns policies hts hns hlist]
        cases policies.find? (eligible las ns.Labels) with
        | none => exact Or.inl rfl
        | some p => exact Or.inr ⟨rfl, p.Spec.Image, rfl⟩

theorem eligible_envTest_nil (p : TimeSyncPolicy)
    (h : p.Spec.NamespaceSelector = Scenario.envTest) :
    eligible apimachinery.LabelSelectorAsSelector [] p = false := by
  have hparse : apimachinery.LabelSelectorAsSelector Scenario.envTest =
      .ok (apimachinery.internalSelector [⟨"env", .Equals, ["test"]⟩]) := rfl
  simp only [eligible, selects, h, hparse]
  have : (apimachinery.internalSelector [⟨"env", .Equals, ["test"]⟩]).Matches [] = false := by
    decide
  simp [this]

/-! ## The admission path: claims -/

/-- C1. A pod without a container named "timesync", in a namespace the client
finds, with a policy list the client returns that holds an enabled policy
whose selector parses and matches the namespace labels: `Default` returns no
error and leaves the containers equal to the original sequence followed by
the one container named "timesync" with the arguments `sleep infinity` and
the image of such a policy, the first of them in the list. -/
theorem Default_injects_sidecar (las : LabelSelector → Except String Selector)
    (c : Cluster) (pod : Pod) (ns : Namespace) (policies : List TimeSyncPolicy)
    (hno : ∀ k ∈ pod.Spec.Containers, k.Name ≠ "timesync")
    (hns : c.GetNamespace pod.Namespace = .ok ns)
    (hlist : c.ListPolicies = .ok policies)
    (hex : ∃ p ∈ policies, ∃ selector, las p.Spec.NamespaceSelector = .ok selector ∧
      selector.Matches ns.Labels = true ∧ p.Spec.Enable = true) :
    ∃ p ∈ policies,
      (∃ selector, las p.Spec.NamespaceSelector = .ok selector ∧
        selector.Matches ns.Labels = true ∧ p.Spec.Enable = true) ∧
      policies.find? (eligible las ns.Labels) = some p ∧
      Default las c (.pod pod) =
        (.pod { pod with Spec := { Containers := pod.Spec.Containers ++
          [{ Name := "timesync", Image := p.Spec.Image, Args := ["sleep", "infinity"] }] } },
         none) := by
  have hts : hasTimesync pod = false := by
    simp only [hasTimesync, List.any_eq_false]
    intro k hk
    simpa using hno k hk
  obtain ⟨p0, hp0, sel0, hsel0, hm0, he0⟩ := hex
  have hel0 : eligible las ns.Labels p0 = true := by simp [eligible, selects, hsel0, hm0, he0]
  cases hfind : policies.find? (eligible las ns.Labels) with
  | none =>
    rw [List.find?_eq_none] at hfind
    exact absurd hel0 (hfind p0 hp0)
  | some p =>
    have hp := List.find?_some hfind
    have hmem := List.mem_of_find?_eq_some hfind
    refine ⟨p, hmem, ?_, rfl, ?_⟩
    · simp only [eligible, selects] at hp
      cases hparse : las p.Spec.NamespaceSelector with
      | error e => simp [hparse] at hp
      | ok sel =>
        simp only [hparse, Bool.and_eq_true] at hp
        exact ⟨sel, rfl, hp.1, hp.2⟩
    · rw [Default_eq_find las c pod ns _ hts hns hlist, hfind]
      rfl

/-- C1, at the scenario of the test suite: namespace `{env: test}`, policy
`env=test` enabled with image `timesync:latest`, pod with the container `app`. -/
theorem Default_injects_sidecar_witness :
    ∃ p ∈ [Scenario.testPolicy],
      (∃ selector, apimachinery.LabelSelectorAsSelector p.Spec.NamespaceSelector = .ok selector ∧
        selector.Matches Scenario.testNamespace.Labels = true ∧ p.Spec.Enable = true) ∧
      [Scenario.testPolicy].find? (eligible apimachinery.LabelSelectorAsSelector
        Scenario.testNamespace.Labels) = some p ∧
      Default apimachinery.LabelSelectorAsSelector (Scenario.cluster [Scenario.testPolicy])
          (.pod (Scenario.appPod "test-namespace")) =
        (.pod { Scenario.appPod "test-namespace" with Spec := { Containers :=
          (Scenario.appPod "test-namespace").Spec.Containers ++
          [{ Name := "timesync", Image := p.Spec.Image, Args := ["sleep", "infinity"] }] } },
         none) :=
  Default_injects_sidecar apimachinery.LabelSelectorAsSelector
    (Scenario.cluster [Scenario.testPolicy]) (Scenario.appPod "test-namespace")
    Scenario.testNamespace [Scenario.testPolicy] (by decide) (by decide) (by decide)
    ⟨Scenario.testPolicy, by decide,
      apimachinery.internalSelector [⟨"env", .Equals, ["test"]⟩], rfl, by decide, by decide⟩

/-- C2. Idempotence of `Default`: a pod that already has a container named
"timesync" is returned as it is, whatever the cluster holds; for every object
and every cluster, `Default` applied to the result of `Default` gives what one
application gives; and a pod that had no such container has at most one after
two applications. -/
theorem Default_idempotent (las : LabelSelector → Except String Selector) (c : Cluster)
    (obj : RuntimeObject) :
    (∀ pod, obj = .pod pod → (∃ k ∈ pod.Spec.Containers, k.Name = "timesync") →
      Default las c obj = (obj, none)) ∧
    Default las c (Default las c obj).1 = Default las c obj ∧
    (∀ pod pod2, obj = .pod pod → (∀ k ∈ pod.Spec.Containers, k.Name ≠ "timesync") →
      (Default las c (Default las c obj).1).1 = .pod pod2 →
      (pod2.Spec.Containers.filter (fun k => k.Name == "timesync")).length ≤ 1) := by
  have hidem : ∀ pod, Default las c (Default las c (.pod pod)).1 = Default las c (.pod pod) := by
    intro pod
    rcases Default_pod_cases las c pod with h | ⟨_, image, h⟩
    · rw [h]; exact h
    · rw [h]
      exact Default_of_hasTimesync las c _ (hasTimesync_withContainers_sidecar pod image)
  refine ⟨?_, ?_, ?_⟩
  · rintro pod rfl ⟨k, hk, hname⟩
    apply Default_of_hasTimesync
    simp only [hasTimesync, List.any_eq_true]
    exact ⟨k, hk, by simp [hname]⟩
  · cases obj with
    | other t => rfl
    | pod pod => exact hidem pod
  · rintro pod pod2 rfl hno h2
    rw [hidem pod] at h2
    have h0 : pod.Spec.Containers.filter (fun k => k.Name == "timesync") = [] := by
      rw [List.filter_eq_nil_iff]
      intro k hk
      simpa using hno k hk
    rcases Default_pod_cases las c pod with h | ⟨_, image, h⟩
    · rw [h] at h2
      cases h2
      simp [h0]
    · rw [h] at h2
      cases h2
      simp [Pod.withContainers, List.filter_append, h0, timesyncSidecar]

/-- C2, at the scenario of the test suite: the pod that already carries the
sidecar is returned as it is, and a second `Default` on the admitted pod
changes nothing. -/
theorem Default_idempotent_witness :
    Default apimachinery.LabelSelectorAsSelector (Scenario.cluster [Scenario.testPolicy])
      (.pod ((Scenario.appPod "test-namespace").withContainers
        [⟨"app", "app:latest", []⟩, timesyncSidecar "old"])) =
      (.pod ((Scenario.appPod "test-namespace").withContainers
        [⟨"app", "app:latest", []⟩, timesyncSidecar "old"]), none) ∧
    Default apimachinery.LabelSelectorAsSelector (Scenario.cluster [Scenario.testPolicy])
      (Default apimachinery.LabelSelectorAsSelector (Scenario.cluster [Scenario.testPolicy])
        (.pod (Scenario.appPod "test-namespace"))).1 =
      Default apimachinery.LabelSelectorAsSelector (Scenario.cluster [Scenario.testPolicy])
        (.pod (Scenario.appPod "test-namespace")) :=
  ⟨(Default_idempotent apimachinery.LabelSelectorAsSelector
      (Scenario.cluster [Scenario.testPolicy]) _).1 _ rfl
      ⟨timesyncSidecar "old", by decide, by decide⟩,
   (Default_idempotent apimachinery.LabelSelectorAsSelector
      (Scenario.cluster [Scenario.testPolicy]) _).2.1⟩

/-- C3. Fail-open: when the namespace lookup returns an error (not found or
any other), or it succeeds and the policy listing returns an error, `Default`
returns no error and leaves the pod as it is. -/
theorem Default_fail_open (las : LabelSelector → Except String Selector) (c : Cluster)
    (pod : Pod)
    (h : (∃ err, c.GetNamespace pod.Namespace = .error err) ∨
      (∃ ns err, c.GetNamespace pod.Namespace = .ok ns ∧ c.ListPolicies = .error err)) :
    Default las c (.pod pod) = (.pod pod, none) := by
  rcases h with ⟨err, hns⟩ | ⟨ns, err, hns, hlist⟩
  · simp only [Default, hns]
    split <;> rfl
  · simp only [Default, hns, hlist]
    split <;> rfl

/-- C3, at a pod in a namespace the cluster does not hold (not found), and at
a cluster whose policy listing fails. -/
theorem Default_fail_open_witness :
    Default apimachinery.LabelSelectorAsSelector (Scenario.cluster [Scenario.testPolicy])
        (.pod (Scenario.appPod "missing-ns")) =
      (.pod (Scenario.appPod "missing-ns"), none) ∧
    Default apimachinery.LabelSelectorAsSelector
        { Scenario.cluster [Scenario.testPolicy] with
          listPoliciesErr := some (.failure "etcd unavailable") }
        (.pod (Scenario.appPod "test-namespace")) =
      (.pod (Scenario.appPod "test-namespace"), none) :=
  ⟨Default_fail_open _ _ _ (Or.inl ⟨.notFound "missing-ns", by decide⟩),
   Default_fail_open _ _ _
     (Or.inr ⟨Scenario.testNamespace, .failure "etcd unavailable", by decide, by decide⟩)⟩

/-- C4. First match: when the listed policies are `pre ++ p1 :: post`, no
policy of `pre` is enabled with a selector that parses and matches the labels
of the namespace, and `p1` is, then `Default` appends exactly one container,
with the image of `p1`, whatever `post` holds (in particular a later enabled
matching policy `p2`). -/
theorem Default_first_match (las : LabelSelector → Except String Selector) (c : Cluster)
    (pod : Pod) (ns : Namespace) (pre post : List TimeSyncPolicy) (p1 : TimeSyncPolicy)
    (hno : hasTimesync pod = false)
    (hns : c.GetNamespace pod.Namespace = .ok ns)
    (hlist : c.ListPolicies = .ok (pre ++ p1 :: post))
    (hpre : ∀ q ∈ pre, eligible las ns.Labels q = false)
    (hp1 : eligible las ns.Labels p1 = true) :
    Default las c (.pod pod) =
      (.pod { pod with Spec := { Containers := pod.Spec.Containers ++
        [{ Name := "timesync", Image := p1.Spec.Image, Args := ["sleep", "infinity"] }] } },
       none) :=
  Default_first_eligible las c pod ns pre post p1 hno hns hlist hpre hp1

/-- C4, at two enabled policies that both select `env=test`, behind a disabled
one: the image injected is that of the first of the two. -/
theorem Default_first_match_witness :
    Default apimachinery.LabelSelectorAsSelector
        (Scenario.cluster [Scenario.disabledPolicy, Scenario.testPolicy, Scenario.otherPolicy])
        (.pod (Scenario.appPod "test-namespace")) =
      (.pod { Scenario.appPod "test-namespace" with Spec := { Containers :=
        [⟨"app", "app:latest", []⟩, ⟨"timesync", "timesync:latest", ["sleep", "infinity"]⟩] } },
       none) :=
  Default_first_match apimachinery.LabelSelectorAsSelector
    (Scenario.cluster [Scenario.disabledPolicy, Scenario.testPolicy, Scenario.otherPolicy])
    (Scenario.appPod "test-namespace") Scenario.testNamespace
    [Scenario.disabledPolicy] [Scenario.otherPolicy] Scenario.testPolicy
    (by decide) (by decide) (by decide) (by decide) (by decide)

/-- C5. No injection without an enabled matching policy: (1) when no listed
policy is both enabled and has a selector that parses and matches the labels
of the namespace, `Default` leaves the pod as it is; (2) removing a policy
with `Enable = false` from the stored list never changes the result of
`Default`; (3) in a namespace without labels, under policies that all select
`env=test`, the pod is left as it is. -/
theorem Default_no_eligible_policy :
    (∀ (las : LabelSelector → Except String Selector) (c : Cluster) (pod : Pod)
        (ns : Namespace) (policies : List TimeSyncPolicy),
        c.GetNamespace pod.Namespace = .ok ns → c.ListPolicies = .ok policies →
        (∀ q ∈ policies, ¬ (q.Spec.Enable = true ∧ selects las ns.Labels q = true)) →
        Default las c (.pod pod) = (.pod pod, none)) ∧
    (∀ (las : LabelSelector → Except String Selector) (c : Cluster) (obj : RuntimeObject)
        (pre post : List TimeSyncPolicy) (p : TimeSyncPolicy),
        c.policies = pre ++ p :: post → p.Spec.Enable = false →
        Default las { c with policies := pre ++ post } obj = Default las c obj) ∧
    (∀ (c : Cluster) (pod : Pod) (ns : Namespace) (policies : List TimeSyncPolicy),
        c.GetNamespace pod.Namespace = .ok ns → ns.Labels = [] →
        c.ListPolicies = .ok policies →
        (∀ q ∈ policies, q.Spec.NamespaceSelector =
          { MatchLabels := [("env", "test")], MatchExpressions := [] }) →
        Default apimachinery.LabelSelectorAsSelector c (.pod pod) = (.pod pod, none)) := by
  refine ⟨?_, ?_, ?_⟩
  · intro las c pod ns policies hns hlist hnone
    apply Default_none_eligible las c pod ns policies hns hlist
    intro q hq
    have := hnone q hq
    cases hsel : selects las ns.Labels q <;> cases hen : q.Spec.Enable <;>
      simp_all [eligible]
  · intro las c obj pre post p hc hp
    apply Default_congr_policies
    intro nsLabels
    have : eligible las nsLabels p = false := by simp [eligible, hp]
    simp [hc, List.find?_append, List.find?_cons, this]
  · intro c pod ns policies hns hlabels hlist hsel
    apply Default_none_eligible _ c pod ns policies hns hlist
    intro q hq
    rw [hlabels]
    exact eligible_envTest_nil q (hsel q hq)

/-- C5, at the scenario of the test suite: the pod in `isolated-ns` (no
labels) under the policy `env=test` is left as it is; and so is the pod in
`test-namespace` when the only matching policy is disabled. -/
theorem Default_no_eligible_policy_witness :
    Default apimachinery.LabelSelectorAsSelector (Scenario.cluster [Scenario.testPolicy])
        (.pod (Scenario.appPod "isolated-ns")) =
      (.pod (Scenario.appPod "isolated-ns"), none) ∧
    Default apimachinery.LabelSelectorAsSelector (Scenario.cluster [Scenario.disabledPolicy])
        (.pod (Scenario.appPod "test-namespace")) =
      (.pod (Scenario.appPod "test-namespace"), none) :=
  ⟨Default_no_eligible_policy.2.2 (Scenario.cluster [Scenario.testPolicy])
      (Scenario.appPod "isolated-ns") Scenario.isolatedNs [Scenario.testPolicy]
      (by decide) (by decide) (by decide) (by decide),
   Default_no_eligible_policy.1 apimachinery.LabelSelectorAsSelector
      (Scenario.cluster [Scenario.disabledPolicy]) (Scenario.appPod "test-namespace")
      Scenario.testNamespace [Scenario.disabledPolicy] (by decide) (by decide) (by decide)⟩

/-- C6. Malformed selectors are skipped: (1) the result of `Default` equals
its result on the stored list with every policy whose selector fails to parse
removed; (2) `Default` returns no error for a pod; (3) after any number of
policies with a malformed selector, an enabled policy whose selector parses
and matches still has its sidecar injected. -/
theorem Default_skips_malformed (las : LabelSelector → Except String Selector)
    (c : Cluster) :
    (∀ obj, Default las { c with policies := c.policies.filter (wellFormed las) } obj =
      Default las c obj) ∧
    (∀ pod, (Default las c (.pod pod)).2 = none) ∧
    (∀ (pod : Pod) (ns : Namespace) (bad post : List TimeSyncPolicy) (p : TimeSyncPolicy),
      hasTimesync pod = false → c.GetNamespace pod.Namespace = .ok ns →
      c.ListPolicies = .ok (bad ++ p :: post) →
      (∀ q ∈ bad, wellFormed las q = false) → eligible las ns.Labels p = true →
      Default las c (.pod pod) =
        (.pod (pod.withContainers (pod.Spec.Containers ++ [timesyncSidecar p.Spec.Image])),
          none)) := by
  refine ⟨?_, Default_err_pod las c, ?_⟩
  · intro obj
    apply Default_congr_policies
    intro nsLabels
    rw [List.find?_filter]
    congr 1
    funext a
    have hb : (wellFormed las a && eligible las nsLabels a) = eligible las nsLabels a := by
      simp only [wellFormed, eligible, selects]
      cases las a.Spec.NamespaceSelector <;> simp
    simpa [Bool.decide_and] using hb
  · intro pod ns bad post p hno hns hlist hbad hp
    apply Default_first_eligible las c pod ns bad post p hno hns hlist _ hp
    intro q hq
    have := hbad q hq
    simp only [wellFormed] at this
    simp only [eligible, selects]
    cases hparse : las q.Spec.NamespaceSelector with
    | error e => rfl
    | ok sel => simp [hparse] at this

/-- C6, at the scenario of the test suite with a policy of malformed selector
listed first: the sidecar of the policy behind it is injected. -/
theorem Default_skips_malformed_witness :
    Default apimachinery.LabelSelectorAsSelector
        (Scenario.cluster [Scenario.brokenPolicy, Scenario.testPolicy])
        (.pod (Scenario.appPod "test-namespace")) =
      (.pod ((Scenario.appPod "test-namespace").withContainers
        [⟨"app", "app:latest", []⟩, ⟨"timesync", "timesync:latest", ["sleep", "infinity"]⟩]),
       none) :=
  (Default_skips_malformed apimachinery.LabelSelectorAsSelector
    (Scenario.cluster [Scenario.brokenPolicy, Scenario.testPolicy])).2.2
    (Scenario.appPod "test-namespace") Scenario.testNamespace
    [Scenario.brokenPolicy] [] Scenario.testPolicy
    (by decide) (by decide) (by decide) (by decide) (by decide)

/-! ## Lemmas on the reconciler -/

theorem matchCountLoop_eq (selector : Selector) (namespaces : List Namespace) (n : Int) :
    Reconcile.matchCountLoop selector namespaces n =
      n + (matchingNamespaces selector namespaces : Int) := by
  induction namespaces generalizing n with
  | nil => simp [Reconcile.matchCountLoop, matchingNamespaces]
  | cons ns rest ih =>
    simp only [Reconcile.matchCountLoop, ih, matchingNamespaces, List.filter_cons]
    cases selector.Matches ns.Labels <;> simp
    omega

theorem Reconcile_get_error (las : LabelSelector → Except String Selector) (r : Cluster)
    (req : Request) (e : Error) (hget : r.GetPolicy req.NamespacedName = .error e) :
    Reconcile las r req =
      { result := ⟨false, 0⟩, err := if IsNotFound e then none else some e, cluster := r,
        calls := [.Get req.NamespacedName] } := by
  simp only [Reconcile, hget]
  split <;> rfl

theorem Reconcile_list_error (las : LabelSelector → Except String Selector) (r : Cluster)
    (req : Request) (policy : TimeSyncPolicy) (e : Error)
    (hget : r.GetPolicy req.NamespacedName = .ok policy)
    (hlist : r.ListNamespaces = .error e) :
    Reconcile las r req =
      { result := ⟨false, 0⟩, err := some e, cluster := r,
        calls := [.Get req.NamespacedName, .List] } := by
  simp only [Reconcile, hget, hlist]

theorem Reconcile_parse_error (las : LabelSelector → Except String Selector) (r : Cluster)
    (req : Request) (policy : TimeSyncPolicy) (namespaces : List Namespace) (e : String)
    (hget : r.GetPolicy req.NamespacedName = .ok policy)
    (hlist : r.ListNamespaces = .ok namespaces)
    (hsel : las policy.Spec.NamespaceSelector = .error e) :
    Reconcile las r req =
      { result := ⟨false, 0⟩, err := none, cluster := r,
        calls := [.Get req.NamespacedName, .List] } := by
  simp only [Reconcile, hget, hlist, hsel]

theorem Reconcile_unchanged (las : LabelSelector → Except String Selector) (r : Cluster)
    (req : Request) (policy : TimeSyncPolicy) (namespaces : List Namespace)
    (selector : Selector)
    (hget : r.GetPolicy req.NamespacedName = .ok policy)
    (hlist : r.ListNamespaces = .ok namespaces)
    (hsel : las policy.Spec.NamespaceSelector = .ok selector)
    (heq : policy.Status.MatchedNamespaces = (matchingNamespaces selector namespaces : Int)) :
    Reconcile las r req =
      { result := ⟨false, 0⟩, err := none, cluster := r,
        calls := [.Get req.NamespacedName, .List] } := by
  simp [Reconcile, hget, hlist, hsel, matchCountLoop_eq, heq]

theorem Reconcile_update_error (las : LabelSelector → Except String Selector) (r : Cluster)
    (req : Request) (policy : TimeSyncPolicy) (namespaces : List Namespace)
    (selector : Selector) (e : Error)
    (hget : r.GetPolicy req.NamespacedName = .ok policy)
    (hlist : r.ListNamespaces = .ok namespaces)
    (hsel : las policy.Spec.NamespaceSelector = .ok selector)
    (hne : policy.Status.MatchedNamespaces ≠ (matchingNamespaces selector namespaces : Int))
    (hupd : r.StatusUpdate (policy.withMatched (matchingNamespaces selector namespaces)) =
      .error e) :
    Reconcile las r req =
      { result := ⟨false, 0⟩, err := some e, cluster := r,
        calls := [.Get req.NamespacedName, .List,
          .StatusUpdate (policy.withMatched (matchingNamespaces selector namespaces))] } := by
  simp only [TimeSyncPolicy.withMatched] at hupd
  simp [Reconcile, hget, hlist, hsel, matchCountLoop_eq, hne, hupd, TimeSyncPolicy.withMatched]

theorem Reconcile_update_ok (las : LabelSelector → Except String Selector) (r : Cluster)
    (req : Request) (policy : TimeSyncPolicy) (namespaces : List Namespace)
    (selector : Selector) (r1 : Cluster)
    (hget : r.GetPolicy req.NamespacedName = .ok policy)
    (hlist : r.ListNamespaces = .ok namespaces)
    (hsel : las policy.Spec.NamespaceSelector = .ok selector)
    (hne : policy.Status.MatchedNamespaces ≠ (matchingNamespaces selector namespaces : Int))
    (hupd : r.StatusUpdate (policy.withMatched (matchingNamespaces selector namespaces)) =
      .ok r1) :
    Reconcile las r req =
      { result := ⟨false, 0⟩, err := none, cluster := r1,
        calls := [.Get req.NamespacedName, .List,
          .StatusUpdate (policy.withMatched (matchingNamespaces selector namespaces))] } := by
  simp only [TimeSyncPolicy.withMatched] at hupd
  simp [Reconcile, hget, hlist, hsel, matchCountLoop_eq, hne, hupd, TimeSyncPolicy.withMatched]

theorem GetPolicy_ok (r : Cluster) (key : NamespacedName) (policy : TimeSyncPolicy)
    (h : r.GetPolicy key = .ok policy) :
    r.getPolicyErr = none ∧ r.storedPolicy key.Name = some policy ∧ policy.Name = key.Name := by
  unfold Cluster.GetPolicy at h
  cases herr : r.getPolicyErr with
  | some e => simp [herr] at h
  | none =>
    cases hst : r.storedPolicy key.Name with
    | none => simp [herr, hst] at h
    | some p =>
      simp only [herr, hst, Except.ok.injEq] at h
      subst h
      refine ⟨rfl, rfl, ?_⟩
      have := List.find?_some hst
      simpa using this

theorem StatusUpdate_ok (r : Cluster) (p : TimeSyncPolicy) (r1 : Cluster)
    (h : r.StatusUpdate p = .ok r1) :
    r1 = { r with policies := r.policies.map (fun q =>
      if q.Name == p.Name then { q with Status := p.Status } else q) } := by
  unfold Cluster.StatusUpdate at h
  cases herr : r.statusUpdateErr with
  | some e => simp [herr] at h
  | none =>
    simp only [herr] at h
    split at h
    · simp only [Except.ok.injEq] at h
      exact h.symm
    · simp at h

theorem storedPolicy_after_update (r : Cluster) (p : TimeSyncPolicy) (r1 : Cluster)
    (name : String) (h : r.StatusUpdate p = .ok r1) :
    r1.storedPolicy name = (r.storedPolicy name).map (fun q =>
      if q.Name == p.Name then { q with Status := p.Status } else q) := by
  rw [StatusUpdate_ok r p r1 h]
  simp only [Cluster.storedPolicy, List.find?_map]
  congr 1
  congr 1
  funext q
  simp only [Function.comp]
  split <;> rfl

/-- After a successful update of the policy read under `key`, the client reads
that policy with the status sent, and lists the same namespaces. -/
theorem reads_after_update (r : Cluster) (key : NamespacedName) (policy : TimeSyncPolicy)
    (n : Int) (r1 : Cluster)
    (hget : r.GetPolicy key = .ok policy)
    (hupd : r.StatusUpdate (policy.withMatched n) = .ok r1) :
    r1.GetPolicy key = .ok (policy.withMatched n) ∧ r1.ListNamespaces = r.ListNamespaces ∧
      r1.storedPolicy key.Name = some (policy.withMatched n) := by
  obtain ⟨herr, hst, hname⟩ := GetPolicy_ok r key policy hget
  have hst1 := storedPolicy_after_update r _ r1 key.Name hupd
  rw [hst] at hst1
  have hst2 : r1.storedPolicy key.Name = some (policy.withMatched n) := by
    rw [hst1]
    simp [TimeSyncPolicy.withMatched]
  have hr1 := StatusUpdate_ok r _ r1 hupd
  refine ⟨?_, ?_, hst2⟩
  · have herr1 : r1.getPolicyErr = none := by rw [hr1]; exact herr
    simp [Cluster.GetPolicy, herr1, hst2]
  · rw [hr1]
    rfl

/-- A run of `Reconcile` that left the cluster as it was and made no status
update is repeated as it is by a second run. -/
theorem Reconcile_again_of_cluster_eq (las : LabelSelector → Except String Selector)
    (r : Cluster) (req : Request)
    (hc : (Reconcile las r req).cluster = r)
    (herr : (Reconcile las r req).err = none)
    (hno : ∀ p, Call.StatusUpdate p ∉ (Reconcile las r req).calls) :
    (Reconcile las (Reconcile las r req).cluster req).err = none ∧
    (∀ p, Call.StatusUpdate p ∉ (Reconcile las (Reconcile las r req).cluster req).calls) ∧
    (Reconcile las (Reconcile las r req).cluster req).cluster =
      (Reconcile las r req).cluster := by
  rw [hc]
  exact ⟨herr, hno, hc⟩

/-- The three request sequences a run of `Reconcile` can make. -/
theorem Reconcile_calls_cases (las : LabelSelector → Except String Selector) (r : Cluster)
    (req : Request) :
    (Reconcile las r req).calls = [.Get req.NamespacedName] ∨
    (Reconcile las r req).calls = [.Get req.NamespacedName, .List] ∨
    ∃ p, (Reconcile las r req).calls = [.Get req.NamespacedName, .List, .StatusUpdate p] := by
  cases hget : r.GetPolicy req.NamespacedName with
  | error e => rw [Reconcile_get_error las r req e hget]; exact Or.inl rfl
  | ok policy =>
    cases hlist : r.ListNamespaces with
    | error e => rw [Reconcile_list_error las r req policy e hget hlist]; exact Or.inr (Or.inl rfl)
    | ok namespaces =>
      cases hsel : las policy.Spec.NamespaceSelector with
      | error e =>
        rw [Reconcile_parse_error las r req policy namespaces e hget hlist hsel]
        exact Or.inr (Or.inl rfl)
      | ok selector =>
        by_cases heq : policy.Status.MatchedNamespaces =
            (matchingNamespaces selector namespaces : Int)
        · rw [Reconcile_unchanged las r req policy namespaces selector hget hlist hsel heq]
          exact Or.inr (Or.inl rfl)
        · cases hupd : r.StatusUpdate
              (policy.withMatched (matchingNamespaces selector namespaces)) with
          | error e =>
            rw [Reconcile_update_error las r req policy namespaces selector e hget hlist
              hsel heq hupd]
            exact Or.inr (Or.inr ⟨_, rfl⟩)
          | ok r1 =>
            rw [Reconcile_update_ok las r req policy namespaces selector r1 hget hlist
              hsel heq hupd]
            exact Or.inr (Or.inr ⟨_, rfl⟩)

/-! ## The reconciler: claims -/

/-- C7. For a policy the client returns, with a selector that parses, and a list
of namespaces the client returns, when the status update (if one is made)
succeeds: `Reconcile` returns no error, and the stored policy then has
`Status.MatchedNamespaces` equal to the number of listed namespaces whose
labels the selector matches, a value between 0 and the length of the list. -/
theorem Reconcile_sets_match_count (las : LabelSelector → Except String Selector)
    (r : Cluster) (req : Request) (policy : TimeSyncPolicy) (namespaces : List Namespace)
    (selector : Selector)
    (hget : r.GetPolicy req.NamespacedName = .ok policy)
    (hlist : r.ListNamespaces = .ok namespaces)
    (hsel : las policy.Spec.NamespaceSelector = .ok selector)
    (hupd : policy.Status.MatchedNamespaces ≠
        ((namespaces.filter (fun ns => selector.Matches ns.Labels)).length : Int) →
      ∃ r1, r.StatusUpdate { policy with Status := { MatchedNamespaces :=
        ((namespaces.filter (fun ns => selector.Matches ns.Labels)).length : Int) } } =
        .ok r1) :
    (Reconcile las r req).err = none ∧
    ∃ stored, (Reconcile las r req).cluster.storedPolicy req.NamespacedName.Name = some stored ∧
      stored.Status.MatchedNamespaces =
        ((namespaces.filter (fun ns => selector.Matches ns.Labels)).length : Int) ∧
      stored.Spec = policy.Spec ∧
      0 ≤ stored.Status.MatchedNamespaces ∧
      stored.Status.MatchedNamespaces ≤ (namespaces.length : Int) := by
  have hle : ((namespaces.filter (fun ns => selector.Matches ns.Labels)).length : Int) ≤
      (namespaces.length : Int) := by
    exact_mod_cast List.length_filter_le _ _
  by_cases heq : policy.Status.MatchedNamespaces =
      ((namespaces.filter (fun ns => selector.Matches ns.Labels)).length : Int)
  · rw [Reconcile_unchanged las r req policy namespaces selector hget hlist hsel heq]
    refine ⟨rfl, policy, (GetPolicy_ok r _ policy hget).2.1, heq, rfl, ?_, ?_⟩
    · rw [heq]; exact Int.natCast_nonneg _
    · rw [heq]; exact hle
  · obtain ⟨r1, hr1⟩ := hupd heq
    rw [Reconcile_update_ok las r req policy namespaces selector r1 hget hlist hsel heq hr1]
    refine ⟨rfl, policy.withMatched (matchingNamespaces selector namespaces),
      (reads_after_update r _ policy _ r1 hget hr1).2.2, rfl, rfl, ?_, hle⟩
    exact Int.natCast_nonneg _

/-- C7, at three matching namespaces out of five listed: the stored count
becomes 3. -/
theorem Reconcile_sets_match_count_witness :
    (Reconcile apimachinery.LabelSelectorAsSelector
        (Scenario.fiveCluster [Scenario.testPolicy] none)
        (Scenario.request "test-policy")).err = none ∧
    ∃ stored, (Reconcile apimachinery.LabelSelectorAsSelector
        (Scenario.fiveCluster [Scenario.testPolicy] none)
        (Scenario.request "test-policy")).cluster.storedPolicy "test-policy" = some stored ∧
      stored.Status.MatchedNamespaces = 3 ∧
      stored.Spec = Scenario.testPolicy.Spec ∧
      0 ≤ stored.Status.MatchedNamespaces ∧ stored.Status.MatchedNamespaces ≤ 5 :=
  Reconcile_sets_match_count apimachinery.LabelSelectorAsSelector
    (Scenario.fiveCluster [Scenario.testPolicy] none) (Scenario.request "test-policy")
    Scenario.testPolicy Scenario.fiveNamespaces Scenario.envTestSelector
    (by decide) (by decide) rfl (fun _ => ⟨_, rfl⟩)

/-- C8. `Reconcile` writes the status only on change: (1) when the computed
match count equals the current `Status.MatchedNamespaces`, it makes no status
update, returns no error and leaves the cluster as it is; (2) after a run that
returned no error, a second run on the cluster the first one left returns no
error, makes no status update and leaves the cluster, hence the stored
policy, as it was. -/
theorem Reconcile_writes_only_on_change (las : LabelSelector → Except String Selector)
    (r : Cluster) (req : Request) :
    (∀ policy namespaces selector,
      r.GetPolicy req.NamespacedName = .ok policy → r.ListNamespaces = .ok namespaces →
      las policy.Spec.NamespaceSelector = .ok selector →
      policy.Status.MatchedNamespaces =
        ((namespaces.filter (fun ns => selector.Matches ns.Labels)).length : Int) →
      (Reconcile las r req).err = none ∧
      (∀ p, Call.StatusUpdate p ∉ (Reconcile las r req).calls) ∧
      (Reconcile las r req).cluster = r) ∧
    ((Reconcile las r req).err = none →
      (Reconcile las (Reconcile las r req).cluster req).err = none ∧
      (∀ p, Call.StatusUpdate p ∉ (Reconcile las (Reconcile las r req).cluster req).calls) ∧
      (Reconcile las (Reconcile las r req).cluster req).cluster =
        (Reconcile las r req).cluster) := by
  constructor
  · intro policy namespaces selector hget hlist hsel heq
    rw [Reconcile_unchanged las r req policy namespaces selector hget hlist hsel heq]
    simp
  · intro herr
    cases hget : r.GetPolicy req.NamespacedName with
    | error e =>
      have h1 := Reconcile_get_error las r req e hget
      apply Reconcile_again_of_cluster_eq las r req _ herr <;> simp [h1]
    | ok policy =>
      cases hlist : r.ListNamespaces with
      | error e =>
        have h1 := Reconcile_list_error las r req policy e hget hlist
        apply Reconcile_again_of_cluster_eq las r req _ herr <;> simp [h1]
      | ok namespaces =>
        cases hsel : las policy.Spec.NamespaceSelector with
        | error e =>
          have h1 := Reconcile_parse_error las r req policy namespaces e hget hlist hsel
          apply Reconcile_again_of_cluster_eq las r req _ herr <;> simp [h1]
        | ok selector =>
          by_cases heq : policy.Status.MatchedNamespaces =
              (matchingNamespaces selector namespaces : Int)
          · have h1 := Reconcile_unchanged las r req policy namespaces selector hget hlist
              hsel heq
            apply Reconcile_again_of_cluster_eq las r req _ herr <;> simp [h1]
          · cases hupd : r.StatusUpdate
                (policy.withMatched (matchingNamespaces selector namespaces)) with
            | error e =>
              have h1 := Reconcile_update_error las r req policy namespaces selector e hget
                hlist hsel heq hupd
              rw [h1] at herr
              simp at herr
            | ok r1 =>
              have h1 := Reconcile_update_ok las r req policy namespaces selector r1 hget
                hlist hsel heq hupd
              obtain ⟨hget1, hlist1, _⟩ := reads_after_update r _ policy _ r1 hget hupd
              rw [hlist] at hlist1
              have h2 := Reconcile_unchanged las r1 req
                (policy.withMatched (matchingNamespaces selector namespaces)) namespaces
                selector hget1 hlist1 hsel rfl
              rw [h1]
              simp only
              rw [h2]
              simp

/-- C8, at three matching namespaces out of five: the first run writes the
count 3, and the second run on the resulting cluster requests the policy and
the namespaces only and leaves the cluster as it is. -/
theorem Reconcile_writes_only_on_change_witness :
    (Reconcile apimachinery.LabelSelectorAsSelector
      (Reconcile apimachinery.LabelSelectorAsSelector
        (Scenario.fiveCluster [Scenario.testPolicy] none)
        (Scenario.request "test-policy")).cluster (Scenario.request "test-policy")).err = none ∧
    (∀ p, Call.StatusUpdate p ∉ (Reconcile apimachinery.LabelSelectorAsSelector
      (Reconcile apimachinery.LabelSelectorAsSelector
        (Scenario.fiveCluster [Scenario.testPolicy] none)
        (Scenario.request "test-policy")).cluster (Scenario.request "test-policy")).calls) ∧
    (Reconcile apimachinery.LabelSelectorAsSelector
      (Reconcile apimachinery.LabelSelectorAsSelector
        (Scenario.fiveCluster [Scenario.testPolicy] none)
        (Scenario.request "test-policy")).cluster (Scenario.request "test-policy")).cluster =
      Scenario.fiveCluster [Scenario.testPolicy.withMatched 3] none :=
  (Reconcile_writes_only_on_change apimachinery.LabelSelectorAsSelector
    (Scenario.fiveCluster [Scenario.testPolicy] none) (Scenario.request "test-policy")).2
    (by decide)

/-- C9 as stated fails: the policy `broken-policy` has a selector with the
operator `Near`, which does not parse, and a stored count of 5; `Reconcile`
returns no error, and the stored count is still 5, not 0. -/
theorem Reconcile_malformed_selector_counterexample :
    (∃ e, apimachinery.LabelSelectorAsSelector Scenario.brokenPolicy.Spec.NamespaceSelector =
      .error e) ∧
    (Reconcile apimachinery.LabelSelectorAsSelector
      (Scenario.fiveCluster [Scenario.brokenPolicy] none)
      (Scenario.request "broken-policy")).err = none ∧
    ((Reconcile apimachinery.LabelSelectorAsSelector
      (Scenario.fiveCluster [Scenario.brokenPolicy] none)
      (Scenario.request "broken-policy")).cluster.storedPolicy "broken-policy").map
        (fun p => p.Status.MatchedNamespaces) = some 5 ∧
    ¬ (((Reconcile apimachinery.LabelSelectorAsSelector
      (Scenario.fiveCluster [Scenario.brokenPolicy] none)
      (Scenario.request "broken-policy")).cluster.storedPolicy "broken-policy").map
        (fun p => p.Status.MatchedNamespaces) = some 0) := by
  refine ⟨⟨_, rfl⟩, by decide, by decide, by decide⟩

/-- C9, amended. When the selector of the policy fails to parse, for every
listed namespace sequence and every prior value of the status, `Reconcile`
returns no error, requests only the policy and the namespace list (no status
update), and leaves the cluster as it is: the stored policy keeps the
`Status.MatchedNamespaces` it had. -/
theorem Reconcile_malformed_selector_keeps_status
    (las : LabelSelector → Except String Selector) (r : Cluster) (req : Request)
    (policy : TimeSyncPolicy) (namespaces : List Namespace) (e : String)
    (hget : r.GetPolicy req.NamespacedName = .ok policy)
    (hlist : r.ListNamespaces = .ok namespaces)
    (hsel : las policy.Spec.NamespaceSelector = .error e) :
    (Reconcile las r req).err = none ∧
    (Reconcile las r req).calls = [.Get req.NamespacedName, .List] ∧
    (Reconcile las r req).cluster = r ∧
    (Reconcile las r req).cluster.storedPolicy req.NamespacedName.Name = some policy := by
  rw [Reconcile_parse_error las r req policy namespaces e hget hlist hsel]
  exact ⟨rfl, rfl, rfl, (GetPolicy_ok r _ policy hget).2.1⟩

/-- C9 amended, at the policy with the operator `Near` and a stored count
of 5. -/
theorem Reconcile_malformed_selector_keeps_status_witness :
    (Reconcile apimachinery.LabelSelectorAsSelector
      (Scenario.fiveCluster [Scenario.brokenPolicy] none)
      (Scenario.request "broken-policy")).err = none ∧
    (Reconcile apimachinery.LabelSelectorAsSelector
      (Scenario.fiveCluster [Scenario.brokenPolicy] none)
      (Scenario.request "broken-policy")).calls =
        [.Get (Scenario.request "broken-policy").NamespacedName, .List] ∧
    (Reconcile apimachinery.LabelSelectorAsSelector
      (Scenario.fiveCluster [Scenario.brokenPolicy] none)
      (Scenario.request "broken-policy")).cluster =
        Scenario.fiveCluster [Scenario.brokenPolicy] none ∧
    (Reconcile apimachinery.LabelSelectorAsSelector
      (Scenario.fiveCluster [Scenario.brokenPolicy] none)
      (Scenario.request "broken-policy")).cluster.storedPolicy "broken-policy" =
        some Scenario.brokenPolicy :=
  Reconcile_malformed_selector_keeps_status apimachinery.LabelSelectorAsSelector
    (Scenario.fiveCluster [Scenario.brokenPolicy] none) (Scenario.request "broken-policy")
    Scenario.brokenPolicy Scenario.fiveNamespaces "not a valid label selector operator"
    (by decide) (by decide) rfl

/-- C10. `Reconcile` returns the error `e` if and only if the policy read
fails with `e` and `e` is not a not-found error, or the policy is read and
the namespace listing fails with `e`, or both succeed, the selector parses, the
count differs from the stored one and the status update fails with `e`.  When
the policy is not found, `Reconcile` returns no error, having requested the
policy only (no listing, no write).  A failed status update is returned after
that one attempt, the cluster left as it was; and no run makes more than one
status update. -/
theorem Reconcile_error_iff (las : LabelSelector → Except String Selector) (r : Cluster)
    (req : Request) :
    (∀ e, (Reconcile las r req).err = some e ↔
      (r.GetPolicy req.NamespacedName = .error e ∧ IsNotFound e = false) ∨
      (∃ policy, r.GetPolicy req.NamespacedName = .ok policy ∧
        r.ListNamespaces = .error e) ∨
      (∃ policy namespaces selector, r.GetPolicy req.NamespacedName = .ok policy ∧
        r.ListNamespaces = .ok namespaces ∧
        las policy.Spec.NamespaceSelector = .ok selector ∧
        policy.Status.MatchedNamespaces ≠
          ((namespaces.filter (fun ns => selector.Matches ns.Labels)).length : Int) ∧
        r.StatusUpdate { policy with Status := { MatchedNamespaces :=
          ((namespaces.filter (fun ns => selector.Matches ns.Labels)).length : Int) } } =
          .error e)) ∧
    (∀ e, r.GetPolicy req.NamespacedName = .error e → IsNotFound e = true →
      (Reconcile las r req).err = none ∧
      (Reconcile las r req).calls = [.Get req.NamespacedName] ∧
      (Reconcile las r req).cluster = r) ∧
    (∀ policy namespaces selector e, r.GetPolicy req.NamespacedName = .ok policy →
      r.ListNamespaces = .ok namespaces →
      las policy.Spec.NamespaceSelector = .ok selector →
      policy.Status.MatchedNamespaces ≠
        ((namespaces.filter (fun ns => selector.Matches ns.Labels)).length : Int) →
      r.StatusUpdate { policy with Status := { MatchedNamespaces :=
        ((namespaces.filter (fun ns => selector.Matches ns.Labels)).length : Int) } } =
        .error e →
      (Reconcile las r req).err = some e ∧
      (Reconcile las r req).calls = [.Get req.NamespacedName, .List,
        .StatusUpdate { policy with Status := { MatchedNamespaces :=
          ((namespaces.filter (fun ns => selector.Matches ns.Labels)).length : Int) } }] ∧
      (Reconcile las r req).cluster = r) ∧
    ((Reconcile las r req).calls.filter Call.isStatusUpdate).length ≤ 1 := by
  refine ⟨?_, ?_, ?_, ?_⟩
  · intro e
    cases hget : r.GetPolicy req.NamespacedName with
    | error e0 =>
      rw [Reconcile_get_error las r req e0 hget]
      cases hnf : IsNotFound e0 with
      | true =>
        simp only [if_true, Except.error.injEq, false_and, exists_false, or_false,
          reduceCtorEq]
        constructor
        · intro h; cases h
        · rintro ⟨rfl, h⟩
          rw [hnf] at h
          cases h
      | false =>
        simp only [Bool.false_eq_true, if_false, Option.some.injEq, Except.error.injEq,
          false_and, exists_false, or_false, reduceCtorEq]
        constructor
        · rintro rfl; exact ⟨rfl, hnf⟩
        · rintro ⟨rfl, _⟩; rfl
    | ok policy =>
      cases hlist : r.ListNamespaces with
      | error e1 =>
        rw [Reconcile_list_error las r req policy e1 hget hlist]
        simp
      | ok namespaces =>
        cases hsel : las policy.Spec.NamespaceSelector with
        | error e2 =>
          rw [Reconcile_parse_error las r req policy namespaces e2 hget hlist hsel]
          simp only [reduceCtorEq, false_and, Except.ok.injEq, exists_false, and_false,
            false_or, false_iff, not_exists, not_and]
          intro p ns sel hp hns hsel2
          rw [← hp, hsel] at hsel2
          cases hsel2
        | ok selector =>
          by_cases heq : policy.Status.MatchedNamespaces =
              (matchingNamespaces selector namespaces : Int)
          · rw [Reconcile_unchanged las r req policy namespaces selector hget hlist hsel heq]
            simp only [reduceCtorEq, false_and, Except.ok.injEq, exists_false, and_false,
              false_or, false_iff, not_exists, not_and]
            intro p ns sel hp hns hsel2 hne
            subst hp hns
            rw [hsel] at hsel2
            cases hsel2
            exact absurd heq hne
          · cases hupd : r.StatusUpdate
                (policy.withMatched (matchingNamespaces selector namespaces)) with
            | error e3 =>
              rw [Reconcile_update_error las r req policy namespaces selector e3 hget hlist
                hsel heq hupd]
              simp only [Option.some.injEq, reduceCtorEq, false_and, Except.ok.injEq,
                exists_false, and_false, false_or]
              constructor
              · rintro rfl
                exact ⟨policy, namespaces, selector, rfl, rfl, hsel, heq, hupd⟩
              · rintro ⟨p, ns, sel, hp, hns, hsel2, _, hu⟩
                subst hp hns
                rw [hsel] at hsel2
                cases hsel2
                have : r.StatusUpdate
                    (policy.withMatched (matchingNamespaces selector namespaces)) =
                    .error e := hu
                rw [hupd] at this
                cases this
                rfl
            | ok r1 =>
              rw [Reconcile_update_ok las r req policy namespaces selector r1 hget hlist
                hsel heq hupd]
              simp only [reduceCtorEq, false_and, Except.ok.injEq, exists_false, and_false,
                false_or, false_iff, not_exists, not_and]
              intro p ns sel hp hns hsel2 _ hu
              subst hp hns
              rw [hsel] at hsel2
              cases hsel2
              have : r.StatusUpdate
                  (policy.withMatched (matchingNamespaces selector namespaces)) =
                  .error e := hu
              rw [hupd] at this
              cases this
  · intro e hget hnf
    rw [Reconcile_get_error las r req e hget]
    simp [hnf]
  · intro policy namespaces selector e hget hlist hsel hne hupd
    rw [Reconcile_update_error las r req policy namespaces selector e hget hlist hsel hne hupd]
    exact ⟨rfl, rfl, rfl⟩
  · rcases Reconcile_calls_cases las r req with h | h | ⟨p, h⟩ <;>
      simp [h, Call.isStatusUpdate]

/-- C10, at a cluster that answers the status update with a conflict: the
conflict is what `Reconcile` returns, after one attempt; and at a request for
a policy the cluster does not hold: no error, only the policy requested. -/
theorem Reconcile_error_iff_witness :
    ((Reconcile apimachinery.LabelSelectorAsSelector
        (Scenario.fiveCluster [Scenario.testPolicy] (some (.conflict "test-policy")))
        (Scenario.request "test-policy")).err = some (.conflict "test-policy") ∧
      (Reconcile apimachinery.LabelSelectorAsSelector
        (Scenario.fiveCluster [Scenario.testPolicy] (some (.conflict "test-policy")))
        (Scenario.request "test-policy")).calls =
          [.Get (Scenario.request "test-policy").NamespacedName, .List,
            .StatusUpdate (Scenario.testPolicy.withMatched 3)] ∧
      (Reconcile apimachinery.LabelSelectorAsSelector
        (Scenario.fiveCluster [Scenario.testPolicy] (some (.conflict "test-policy")))
        (Scenario.request "test-policy")).cluster =
          Scenario.fiveCluster [Scenario.testPolicy] (some (.conflict "test-policy"))) ∧
    ((Reconcile apimachinery.LabelSelectorAsSelector
        (Scenario.fiveCluster [Scenario.testPolicy] none)
        (Scenario.request "deleted-policy")).err = none ∧
      (Reconcile apimachinery.LabelSelectorAsSelector
        (Scenario.fiveCluster [Scenario.testPolicy] none)
        (Scenario.request "deleted-policy")).calls =
          [.Get (Scenario.request "deleted-policy").NamespacedName] ∧
      (Reconcile apimachinery.LabelSelectorAsSelector
        (Scenario.fiveCluster [Scenario.testPolicy] none)
        (Scenario.request "deleted-policy")).cluster =
          Scenario.fiveCluster [Scenario.testPolicy] none) :=
  ⟨(Reconcile_error_iff apimachinery.LabelSelectorAsSelector
      (Scenario.fiveCluster [Scenario.testPolicy] (some (.conflict "test-policy")))
      (Scenario.request "test-policy")).2.2.1 Scenario.testPolicy Scenario.fiveNamespaces
      Scenario.envTestSelector (.conflict "test-policy")
      (by decide) (by decide) rfl (by decide) (by decide),
   (Reconcile_error_iff apimachinery.LabelSelectorAsSelector
      (Scenario.fiveCluster [Scenario.testPolicy] none)
      (Scenario.request "deleted-policy")).2.1 (.notFound "deleted-policy")
      (by decide) (by decide)⟩

/-! ## Lemmas on the event mapping and on selectors without requirements -/

theorem mapNamespaceToPolicies_loop_eq (las : LabelSelector → Except String Selector)
    (nsLabels : Labels) (policies : List TimeSyncPolicy) (reqs : List Request) :
    mapNamespaceToPolicies.policiesLoop las nsLabels policies reqs =
      reqs ++ (policies.filter (selects las nsLabels)).map requestFor := by
  induction policies generalizing reqs with
  | nil => simp [mapNamespaceToPolicies.policiesLoop]
  | cons p rest ih =>
    cases hparse : las p.Spec.NamespaceSelector with
    | error e =>
      have hs : selects las nsLabels p = false := by simp [selects, hparse]
      simp [mapNamespaceToPolicies.policiesLoop, hparse, List.filter_cons, hs, ih]
    | ok sel =>
      have hs : selects las nsLabels p = sel.Matches nsLabels := by simp [selects, hparse]
      cases hm : sel.Matches nsLabels with
      | true =>
        rw [hm] at hs
        simp [mapNamespaceToPolicies.policiesLoop, hparse, hm, List.filter_cons, hs, ih,
          requestFor]
      | false =>
        rw [hm] at hs
        simp [mapNamespaceToPolicies.policiesLoop, hparse, hm, List.filter_cons, hs, ih]

theorem requests_withEnable (las : LabelSelector → Except String Selector)
    (nsLabels : Labels) (enable : TimeSyncPolicy → Bool) (policies : List TimeSyncPolicy) :
    ((policies.map (fun p => p.withEnable (enable p))).filter (selects las nsLabels)).map
        requestFor =
      (policies.filter (selects las nsLabels)).map requestFor := by
  induction policies with
  | nil => rfl
  | cons p rest ih =>
    have hsel : selects las nsLabels (p.withEnable (enable p)) = selects las nsLabels p := rfl
    simp only [List.map_cons, List.filter_cons, hsel]
    cases selects las nsLabels p with
    | true => simpa [requestFor, TimeSyncPolicy.withEnable] using ih
    | false => simpa using ih

theorem LabelSelectorAsSelector_noRequirements (s : LabelSelector)
    (hl : s.MatchLabels = []) (he : s.MatchExpressions = []) :
    apimachinery.LabelSelectorAsSelector s = .ok (apimachinery.internalSelector []) := by
  simp [apimachinery.LabelSelectorAsSelector, hl, he]

theorem matchingNamespaces_everything (namespaces : List Namespace) :
    matchingNamespaces (apimachinery.internalSelector []) namespaces = namespaces.length := by
  simp [matchingNamespaces, apimachinery.internalSelector]

/-- What a run of `Reconcile` stores when the policy is read, the namespaces
are listed, the selector parses and the status update, if one is made,
succeeds. -/
theorem Reconcile_stored_count (las : LabelSelector → Except String Selector) (r : Cluster)
    (req : Request) (policy : TimeSyncPolicy) (namespaces : List Namespace)
    (selector : Selector)
    (hget : r.GetPolicy req.NamespacedName = .ok policy)
    (hlist : r.ListNamespaces = .ok namespaces)
    (hsel : las policy.Spec.NamespaceSelector = .ok selector)
    (hupd : policy.Status.MatchedNamespaces ≠ (matchingNamespaces selector namespaces : Int) →
      ∃ r1, r.StatusUpdate (policy.withMatched (matchingNamespaces selector namespaces)) =
        .ok r1) :
    (Reconcile las r req).err = none ∧
    (Reconcile las r req).cluster.storedPolicy req.NamespacedName.Name =
      some (policy.withMatched (matchingNamespaces selector namespaces)) := by
  by_cases heq : policy.Status.MatchedNamespaces = (matchingNamespaces selector namespaces : Int)
  · rw [Reconcile_unchanged las r req policy namespaces selector hget hlist hsel heq]
    refine ⟨rfl, ?_⟩
    simp only [(GetPolicy_ok r _ policy hget).2.1, TimeSyncPolicy.withMatched, ← heq]
  · obtain ⟨r1, hr1⟩ := hupd heq
    rw [Reconcile_update_ok las r req policy namespaces selector r1 hget hlist hsel heq hr1]
    exact ⟨rfl, (reads_after_update r _ policy _ r1 hget hr1).2.2⟩

/-- With a listed eligible policy, `Default` appends the sidecar of the first
eligible policy of the list. -/
theorem Default_some_eligible (las : LabelSelector → Except String Selector) (c : Cluster)
    (pod : Pod) (ns : Namespace) (policies : List TimeSyncPolicy) (p : TimeSyncPolicy)
    (hno : hasTimesync pod = false)
    (hns : c.GetNamespace pod.Namespace = .ok ns)
    (hlist : c.ListPolicies = .ok policies)
    (hmem : p ∈ policies) (hp : eligible las ns.Labels p = true) :
    ∃ q ∈ policies, eligible las ns.Labels q = true ∧
      policies.find? (eligible las ns.Labels) = some q ∧
      Default las c (.pod pod) =
        (.pod (pod.withContainers (pod.Spec.Containers ++ [timesyncSidecar q.Spec.Image])),
          none) := by
  cases hfind : policies.find? (eligible las ns.Labels) with
  | none =>
    rw [List.find?_eq_none] at hfind
    exact absurd hp (hfind p hmem)
  | some q =>
    refine ⟨q, List.mem_of_find?_eq_some hfind, List.find?_some hfind, rfl, ?_⟩
    rw [Default_eq_find las c pod ns _ hno hns hlist, hfind]

/-! ## The event mapping and selectors without requirements: claims -/

/-- C11. For a namespace event and a policy list the client returns,
`mapNamespaceToPolicies` returns, in list order, one request for each listed
policy whose selector parses and matches the labels of the namespace, named
by the name of the policy, and nothing for the other policies (selector
malformed or not matching); the result does not depend on `Enable`: it stays
the same when the `Enable` fields of the stored policies are replaced by any
other values. -/
theorem mapNamespaceToPolicies_requests (las : LabelSelector → Except String Selector)
    (r : Cluster) (ns : Namespace) (policies : List TimeSyncPolicy)
    (hlist : r.ListPolicies = .ok policies) :
    mapNamespaceToPolicies las r (.ofNamespace ns) =
      (policies.filter (fun p =>
          match las p.Spec.NamespaceSelector with
          | .error _ => false
          | .ok selector => selector.Matches ns.Labels)).map
        (fun p => { NamespacedName := { Namespace := "", Name := p.Name } }) ∧
    (∀ enable : TimeSyncPolicy → Bool,
      mapNamespaceToPolicies las
          { r with policies := r.policies.map (fun p => p.withEnable (enable p)) }
          (.ofNamespace ns) =
        mapNamespaceToPolicies las r (.ofNamespace ns)) := by
  constructor
  · simp only [mapNamespaceToPolicies, hlist, mapNamespaceToPolicies_loop_eq, List.nil_append]
    rfl
  · intro enable
    simp only [mapNamespaceToPolicies, Cluster.ListPolicies]
    cases r.listPoliciesErr with
    | some e => rfl
    | none =>
      simp only [mapNamespaceToPolicies_loop_eq, List.nil_append]
      exact requests_withEnable las ns.Labels enable r.policies

/-- C11, at the namespace `{env: test}` and five listed policies: malformed
selector, disabled `env=test`, `env=prod`, enabled `env=test`, no
requirements.  The requests are those of the second, fourth and fifth, in
that order. -/
theorem mapNamespaceToPolicies_requests_witness :
    mapNamespaceToPolicies apimachinery.LabelSelectorAsSelector
        (Scenario.cluster [Scenario.brokenPolicy, Scenario.disabledPolicy, Scenario.prodPolicy,
          Scenario.testPolicy, Scenario.openPolicy])
        (.ofNamespace Scenario.testNamespace) =
      [⟨⟨"", "disabled-policy"⟩⟩, ⟨⟨"", "test-policy"⟩⟩, ⟨⟨"", "test-resource"⟩⟩] :=
  (mapNamespaceToPolicies_requests apimachinery.LabelSelectorAsSelector
    (Scenario.cluster [Scenario.brokenPolicy, Scenario.disabledPolicy, Scenario.prodPolicy,
      Scenario.testPolicy, Scenario.openPolicy])
    Scenario.testNamespace
    [Scenario.brokenPolicy, Scenario.disabledPolicy, Scenario.prodPolicy,
      Scenario.testPolicy, Scenario.openPolicy] (by decide)).1.trans (by decide)

/-- C12. Open selector semantics: (1) a selector with no match-labels and no
match-expressions parses, and the selector obtained matches every label set;
(2) reconciling a policy with such a selector, the status update (if one is
made) succeeding, returns no error and stores a match count equal to the
number of listed namespaces; (3) an enabled policy with such a selector is
eligible for every namespace, so a pod without the sidecar, in a namespace the
client finds, gets the sidecar of the first eligible listed policy. -/
theorem open_selector_matches_everything :
    (∀ (s : LabelSelector) (L : Labels), s.MatchLabels = [] → s.MatchExpressions = [] →
      ∃ selector, apimachinery.LabelSelectorAsSelector s = .ok selector ∧
        selector.Matches L = true) ∧
    (∀ (r : Cluster) (req : Request) (policy : TimeSyncPolicy) (namespaces : List Namespace),
      r.GetPolicy req.NamespacedName = .ok policy → r.ListNamespaces = .ok namespaces →
      policy.Spec.NamespaceSelector.MatchLabels = [] →
      policy.Spec.NamespaceSelector.MatchExpressions = [] →
      (policy.Status.MatchedNamespaces ≠ (namespaces.length : Int) →
        ∃ r1, r.StatusUpdate { policy with Status := { MatchedNamespaces :=
          (namespaces.length : Int) } } = .ok r1) →
      (Reconcile apimachinery.LabelSelectorAsSelector r req).err = none ∧
      ∃ stored, (Reconcile apimachinery.LabelSelectorAsSelector r req).cluster.storedPolicy
          req.NamespacedName.Name = some stored ∧
        stored.Status.MatchedNamespaces = (namespaces.length : Int)) ∧
    (∀ (c : Cluster) (pod : Pod) (ns : Namespace) (policies : List TimeSyncPolicy)
        (p : TimeSyncPolicy),
      p.Spec.NamespaceSelector.MatchLabels = [] →
      p.Spec.NamespaceSelector.MatchExpressions = [] → p.Spec.Enable = true →
      eligible apimachinery.LabelSelectorAsSelector ns.Labels p = true ∧
      (hasTimesync pod = false → c.GetNamespace pod.Namespace = .ok ns →
        c.ListPolicies = .ok policies → p ∈ policies →
        ∃ q ∈ policies,
          policies.find? (eligible apimachinery.LabelSelectorAsSelector ns.Labels) = some q ∧
          Default apimachinery.LabelSelectorAsSelector c (.pod pod) =
            (.pod (pod.withContainers
              (pod.Spec.Containers ++ [timesyncSidecar q.Spec.Image])), none))) := by
  refine ⟨?_, ?_, ?_⟩
  · intro s L hl he
    exact ⟨_, LabelSelectorAsSelector_noRequirements s hl he, rfl⟩
  · intro r req policy namespaces hget hlist hl he hupd
    have hsel := LabelSelectorAsSelector_noRequirements policy.Spec.NamespaceSelector hl he
    have hcount := matchingNamespaces_everything namespaces
    have h := Reconcile_stored_count apimachinery.LabelSelectorAsSelector r req policy
      namespaces _ hget hlist hsel (by rw [hcount]; exact hupd)
    rw [hcount] at h
    exact ⟨h.1, _, h.2, rfl⟩
  · intro c pod ns policies p hl he hen
    have hel : eligible apimachinery.LabelSelectorAsSelector ns.Labels p = true := by
      simp only [eligible, selects, LabelSelectorAsSelector_noRequirements _ hl he, hen]
      rfl
    refine ⟨hel, ?_⟩
    intro hno hns hlist hmem
    obtain ⟨q, hq, _, hfind, hdef⟩ := Default_some_eligible
      apimachinery.LabelSelectorAsSelector c pod ns policies p hno hns hlist hmem hel
    exact ⟨q, hq, hfind, hdef⟩

/-- C12, at the policy of the controller test (empty spec) and five listed
namespaces: the stored count becomes 5; and enabled, the policy puts its
sidecar into a pod of the namespace without labels. -/
theorem open_selector_matches_everything_witness :
    ((Reconcile apimachinery.LabelSelectorAsSelector
        (Scenario.fiveCluster [Scenario.openPolicy] none)
        (Scenario.request "test-resource")).err = none ∧
      ∃ stored, (Reconcile apimachinery.LabelSelectorAsSelector
          (Scenario.fiveCluster [Scenario.openPolicy] none)
          (Scenario.request "test-resource")).cluster.storedPolicy "test-resource" =
            some stored ∧
        stored.Status.MatchedNamespaces = 5) ∧
    (∃ q ∈ [Scenario.openPolicy.withEnable true],
      [Scenario.openPolicy.withEnable true].find?
        (eligible apimachinery.LabelSelectorAsSelector Scenario.isolatedNs.Labels) = some q ∧
      Default apimachinery.LabelSelectorAsSelector
          (Scenario.cluster [Scenario.openPolicy.withEnable true])
          (.pod (Scenario.appPod "isolated-ns")) =
        (.pod ((Scenario.appPod "isolated-ns").withContainers
          ((Scenario.appPod "isolated-ns").Spec.Containers ++
            [timesyncSidecar q.Spec.Image])), none)) :=
  ⟨open_selector_matches_everything.2.1 (Scenario.fiveCluster [Scenario.openPolicy] none)
      (Scenario.request "test-resource") Scenario.openPolicy Scenario.fiveNamespaces
      (by decide) (by decide) rfl rfl (fun _ => ⟨_, rfl⟩),
   (open_selector_matches_everything.2.2 (Scenario.cluster [Scenario.openPolicy.withEnable true])
      (Scenario.appPod "isolated-ns") Scenario.isolatedNs [Scenario.openPolicy.withEnable true]
      (Scenario.openPolicy.withEnable true) rfl rfl rfl).2
      (by decide) (by decide) (by decide) (by decide)⟩

end TimeSync
